import Mathlib

/-!
Verification of the linutil command-execution and package-management core.

The Python modules `linutil/core/executor.py`, `linutil/core/terminal_executor.py`,
`linutil/core/config_loader.py`, `linutil/managers/base_manager.py`,
`linutil/managers/apt_manager.py` and `linutil/managers/dnf_manager.py` are
shallowly embedded below.  Effectful calls (subprocess completion, the sudo
probe, the interactive password prompt, per-package installed checks) are
modelled as explicit parameters describing the outcome the operating system
produced, so every function here is a pure, executable Lean definition.
-/

namespace Linutil

/-! ### executor.py: CommandStatus / CommandResult -/

/-- `CommandStatus` from executor.py. -/
inductive CommandStatus where
  | success
  | failed
  | timeout
  | cancelled
  deriving DecidableEq, BEq, Repr

/-- `CommandResult` from executor.py.  The `execution_time` float field is
omitted: wall-clock time is not modelled. -/
structure CommandResult where
  command : String
  return_code : Int
  stdout : String
  stderr : String
  status : CommandStatus
  deriving DecidableEq, BEq, Repr

/-- `CommandResult.success` property: `return_code == 0 and status == SUCCESS`. -/
def CommandResult.success (r : CommandResult) : Bool :=
  r.return_code == 0 && r.status == CommandStatus.success

/-- `CommandResult.output` property: `stdout + stderr`. -/
def CommandResult.output (r : CommandResult) : String :=
  r.stdout ++ r.stderr

/-! ### executor.py: PrivilegeHandler -/

/-- The state of a `PrivilegeHandler`: which elevation binaries
`shutil.which` found at construction time. -/
structure PrivilegeHandler where
  has_sudo : Bool
  has_pkexec : Bool
  deriving DecidableEq, Repr

/-- `PrivilegeHandler.can_elevate`: `has_sudo or has_pkexec`. -/
def can_elevate (ph : PrivilegeHandler) : Bool :=
  ph.has_sudo || ph.has_pkexec

/-- `PrivilegeHandler.check_privileges`: returns `False` immediately when
`sudo` is absent; otherwise reports the outcome of the `sudo -n true` probe,
which is passed in as `probeSucceeded`. -/
def check_privileges (ph : PrivilegeHandler) (probeSucceeded : Bool) : Bool :=
  ph.has_sudo && probeSucceeded

/-- `PrivilegeHandler.wrap_command`: prefixes `sudo -n ` when `use_sudo`
is requested and the `sudo` binary was found, else returns the command
unchanged.  Note the guard is `has_sudo`, not `can_elevate`. -/
def wrap_command (ph : PrivilegeHandler) (command : String) (use_sudo : Bool) : String :=
  if use_sudo && ph.has_sudo then "sudo -n " ++ command else command

/-! ### executor.py: CommandExecutor.execute -/

/-- What the operating system did with the spawned subprocess of one
`execute` call:
* `completed code out err` — both streams were drained and the process
  exited with `code` (within the timeout, when one was given);
* `timedOut out err` — a timeout was supplied and expired while `out` and
  `err` were the output captured so far (this constructor only arises on
  calls made with a finite timeout, since `asyncio.wait_for` is only used
  then);
* `raised msg` — launching or reading raised an exception rendered as `msg`. -/
inductive ExecOutcome where
  | completed (exitCode : Int) (stdoutAcc stderrAcc : String)
  | timedOut (stdoutAcc stderrAcc : String)
  | raised (message : String)
  deriving DecidableEq, Repr

/-- `CommandExecutor.execute`.  `sudoCached` is the outcome of the
`sudo -n true` probe in `check_privileges`; `elevationGranted` is whether
`request_elevation` succeeded (when it is reached and fails, it raises
`PrivilegeError`).  A raised `PrivilegeError` is the `.error` case; every
other path returns a `CommandResult`. -/
def execute (ph : PrivilegeHandler) (command : String) (use_sudo : Bool)
    (sudoCached : Bool) (elevationGranted : Bool)
    (outcome : ExecOutcome) : Except String CommandResult :=
  if use_sudo && !(can_elevate ph) then
    Except.error "Sudo required but not available"
  else if use_sudo && !(check_privileges ph sudoCached) && !elevationGranted then
    Except.error "Privilege elevation was denied"
  else
    let cmd := if use_sudo then wrap_command ph command true else command
    match outcome with
    | ExecOutcome.completed code out err =>
        Except.ok { command := cmd, return_code := code, stdout := out, stderr := err,
                    status := if code == 0 then CommandStatus.success else CommandStatus.failed }
    | ExecOutcome.timedOut out err =>
        Except.ok { command := cmd, return_code := -1, stdout := out, stderr := err,
                    status := CommandStatus.timeout }
    | ExecOutcome.raised msg =>
        Except.ok { command := cmd, return_code := -1, stdout := "", stderr := msg,
                    status := CommandStatus.failed }

/-- Whether an `execute` model run ended in a raised `PrivilegeError`. -/
def raisesPrivilegeError (e : Except String CommandResult) : Bool :=
  match e with
  | Except.error _ => true
  | Except.ok _ => false

/-! ### executor.py: the environment handed to the subprocess

`execute` copies `os.environ`, applies the caller-supplied `env` dict on
top, then applies the four forced non-interactive overrides last.
Environments are modelled as partial maps `String → Option String`;
a Python `dict.update` is a left fold of single-key overwrites in the
iteration (insertion) order of the updating dict. -/

/-- One `d[k] = v` assignment on an environment map. -/
def envSet (e : String → Option String) (k v : String) : String → Option String :=
  fun k2 => if k2 == k then some v else e k2

/-- `dict.update(kvs)` on an environment map. -/
def envUpdate (e : String → Option String) (kvs : List (String × String)) :
    String → Option String :=
  kvs.foldl (fun acc kv => envSet acc kv.1 kv.2) e

/-- The four overrides `execute` forces after applying the caller env. -/
def forcedEnvOverrides : List (String × String) :=
  [("DEBIAN_FRONTEND", "noninteractive"),
   ("NEEDRESTART_MODE", "a"),
   ("LANG", "C"),
   ("LC_ALL", "C")]

/-- The `exec_env` a subprocess is spawned with:
`os.environ.copy()`, then `update(env)`, then the forced overrides. -/
def buildExecEnv (osEnviron : String → Option String)
    (callerEnv : List (String × String)) : String → Option String :=
  envUpdate (envUpdate osEnviron callerEnv) forcedEnvOverrides

/-! ### executor.py: CommandExecutor.execute_multiple -/

/-- Callback trace events of `execute_multiple`: `on_command_start` and
`on_command_complete` invocations, in order. -/
inductive MultiEvent where
  | start (command : String)
  | complete (result : CommandResult)
  deriving DecidableEq, Repr

/-- `CommandExecutor.execute_multiple`.  `run` maps each command to the
`CommandResult` its `execute` call returns (the `use_sudo` flag is folded
into `run`).  Returns the accumulated results plus the callback trace.
After each command, when `stop_on_error` holds and the result is not
successful the loop breaks. -/
def execute_multiple (run : String → CommandResult) (stop_on_error : Bool) :
    List String → List CommandResult × List MultiEvent
  | [] => ([], [])
  | cmd :: rest =>
    let r := run cmd
    if stop_on_error && !r.success then
      ([r], [MultiEvent.start cmd, MultiEvent.complete r])
    else
      let subsequent := execute_multiple run stop_on_error rest
      (r :: subsequent.1, MultiEvent.start cmd :: MultiEvent.complete r :: subsequent.2)

/-! ### String helpers mirroring Python builtins -/

/-- The ASCII characters `str.strip()` removes. -/
def isPythonSpace (c : Char) : Bool :=
  c == ' ' || c == '\t' || c == '\n' || c == '\r' ||
    c == Char.ofNat 11 || c == Char.ofNat 12

/-- Python `str.strip()` (ASCII whitespace). -/
def pythonStrip (s : String) : String :=
  String.mk (((s.toList.dropWhile isPythonSpace).reverse.dropWhile isPythonSpace).reverse)

/-- Python `str.lower()` (ASCII case folding suffices for the strings
compared here). -/
def pythonLower (s : String) : String :=
  String.mk (s.toList.map Char.toLower)

/-- Whether `shorter` is a prefix of `longer`, on character lists. -/
def listIsPrefixOf : List Char → List Char → Bool
  | [], _ => true
  | _ :: _, [] => false
  | a :: as, b :: bs => a == b && listIsPrefixOf as bs

/-- Whether `needle` occurs inside `hay`, on character lists. -/
def listIsInfixOf (needle : List Char) : List Char → Bool
  | [] => listIsPrefixOf needle []
  | c :: rest => listIsPrefixOf needle (c :: rest) || listIsInfixOf needle rest

/-- Python `needle in haystack` on strings. -/
def strContains (haystack needle : String) : Bool :=
  listIsInfixOf needle.toList haystack.toList

/-! ### terminal_executor.py -/

/-- `TerminalResult` from terminal_executor.py. -/
structure TerminalResult where
  return_code : Int
  success : Bool
  deriving DecidableEq, Repr

/-- `TerminalResult.from_code`. -/
def TerminalResult.from_code (code : Int) : TerminalResult :=
  { return_code := code, success := code == 0 }

/-- What `input("Continue? [y/N]: ")` produced: a typed line, or a
`KeyboardInterrupt`. -/
inductive ConfirmResponse where
  | typed (line : String)
  | interrupted
  deriving DecidableEq, Repr

/-- The affirmative test of `execute_with_confirmation`:
`response.strip().lower() in ["y", "yes"]`. -/
def affirmative (response : String) : Bool :=
  let r := pythonLower (pythonStrip response)
  r == "y" || r == "yes"

/-- `TerminalExecutor.execute_with_confirmation`.  `runInteractive` is the
`execute_interactive` continuation; the second component of the result is
the list of commands actually handed to it (empty when the user declined
or interrupted). -/
def execute_with_confirmation (response : ConfirmResponse)
    (commands : List String) (use_sudo : Bool)
    (runInteractive : List String → Bool → TerminalResult) :
    TerminalResult × List String :=
  match response with
  | ConfirmResponse.interrupted => (TerminalResult.from_code 130, [])
  | ConfirmResponse.typed line =>
    if affirmative line then (runInteractive commands use_sudo, commands)
    else (TerminalResult.from_code 0, [])

/-! ### base_manager.py: InstallResult -/

/-- `InstallResult` from base_manager.py.  The `errors` dict is modelled
as an association list in the insertion order of the building loop. -/
structure InstallResult where
  success : Bool
  packages_installed : List String
  packages_failed : List String
  errors : List (String × String)
  output : String
  deriving DecidableEq, Repr

/-- `InstallResult.all_successful`: `success and len(packages_failed) == 0`. -/
def InstallResult.all_successful (r : InstallResult) : Bool :=
  r.success && r.packages_failed.length == 0

/-! ### apt_manager.py / dnf_manager.py: error extraction -/

/-- The fallback of `AptManager._extract_error`: first stderr line starting
with `E:`, with the marker dropped and the remainder stripped. -/
def firstAptErrorLine (stderr : String) : String :=
  match (stderr.splitOn "\n").find? (fun line => line.startsWith "E:") with
  | some line => pythonStrip (line.drop 3)
  | none => "Installation failed"

/-- `AptManager._extract_error`. -/
def extract_error_apt (stderr package : String) : String :=
  if strContains stderr ("E: Unable to locate package " ++ package) then
    "Package \u0027" ++ package ++ "\u0027 not found in repositories"
  else if strContains stderr "E: Unmet dependencies" then
    "Unmet dependencies"
  else if strContains stderr "E: Package" && strContains stderr "has no installation candidate" then
    "No installation candidate available"
  else
    firstAptErrorLine stderr

/-- The fallback of `DnfManager._extract_error`: first stderr line starting
with `Error:`, with the marker dropped and the remainder stripped. -/
def firstDnfErrorLine (stderr : String) : String :=
  match (stderr.splitOn "\n").find? (fun line => line.startsWith "Error:") with
  | some line => pythonStrip (line.drop 7)
  | none => "Installation failed"

/-- `DnfManager._extract_error`. -/
def extract_error_dnf (stderr package : String) : String :=
  if strContains stderr ("No match for argument: " ++ package) then
    "Package \u0027" ++ package ++ "\u0027 not found in repositories"
  else if strContains stderr "Error: Unable to find a match" then
    "Package \u0027" ++ package ++ "\u0027 not available"
  else if strContains stderr "conflicts with" then
    "Package conflicts with installed packages"
  else if strContains stderr "Insufficient space" then
    "Insufficient disk space"
  else
    firstDnfErrorLine stderr

/-! ### apt_manager.py / dnf_manager.py: install_packages

`AptManager.install_packages` and `DnfManager.install_packages` share
their result-building shape and differ only in the executed command and
the `_extract_error` routine, so the failure-branch loop is shared here and
parameterised by the extractor.  `isInstalled` models the per-package
`is_package_installed` subprocess probe. -/

/-- The `for package in packages` loop of the failure branch: classify each
package by the post-hoc installed check, collecting the installed list, the
failed list and the errors entries, in input order. -/
def classifyPackages (isInstalled : String → Bool)
    (extractErr : String → String → String) (stderr : String) :
    List String → List String × List String × List (String × String)
  | [] => ([], [], [])
  | p :: rest =>
    let tail := classifyPackages isInstalled extractErr stderr rest
    if isInstalled p then (p :: tail.1, tail.2.1, tail.2.2)
    else (tail.1, p :: tail.2.1, (p, extractErr stderr p) :: tail.2.2)

/-- The result construction of `install_packages` after the combined
install command returned `result`. -/
def install_packages_result (extractErr : String → String → String)
    (packages : List String) (result : CommandResult)
    (isInstalled : String → Bool) : InstallResult :=
  if result.success then
    { success := result.success, packages_installed := packages,
      packages_failed := [], errors := [], output := result.output }
  else
    let parts := classifyPackages isInstalled extractErr result.stderr packages
    { success := result.success, packages_installed := parts.1,
      packages_failed := parts.2.1, errors := parts.2.2, output := result.output }

/-- `AptManager.install_packages` result construction. -/
def apt_install_result (packages : List String) (result : CommandResult)
    (isInstalled : String → Bool) : InstallResult :=
  install_packages_result extract_error_apt packages result isInstalled

/-- `DnfManager.install_packages` result construction. -/
def dnf_install_result (packages : List String) (result : CommandResult)
    (isInstalled : String → Bool) : InstallResult :=
  install_packages_result extract_error_dnf packages result isInstalled

/-! ### apt_manager.py / dnf_manager.py: update_cache and the cache flag -/

/-- `AptManager.update_cache` acting on the `_cache_updated` flag: sets the
flag and returns `True` exactly when the `apt update` result succeeded.
First component: the new flag; second: the returned boolean. -/
def apt_update_cache (cacheUpdated : Bool) (result : CommandResult) : Bool × Bool :=
  if result.success then (true, true) else (cacheUpdated, false)

/-- `DnfManager.update_cache`: `dnf check-update` exits 100 when updates
are available and 0 when none are, so both codes count as success. -/
def dnf_update_cache (cacheUpdated : Bool) (result : CommandResult) : Bool × Bool :=
  if result.return_code == 0 || result.return_code == 100 then (true, true)
  else (cacheUpdated, false)

/-- One `install_packages` call, with its cache-update side effects made
explicit. -/
structure InstallFlow where
  cacheUpdatedAfter : Bool
  updateAttempted : Bool
  installExecuted : Bool
  result : InstallResult
  deriving Repr

/-- `AptManager.install_packages` as a flow: when the cache flag is unset,
`update_cache` is awaited and its boolean return is discarded; the install
command is then executed unconditionally. -/
def apt_install_packages_flow (cacheUpdated : Bool)
    (updateResult installResult : CommandResult)
    (isInstalled : String → Bool) (packages : List String) : InstallFlow :=
  let cache :=
    if cacheUpdated then (cacheUpdated, false)
    else ((apt_update_cache cacheUpdated updateResult).1, true)
  { cacheUpdatedAfter := cache.1, updateAttempted := cache.2,
    installExecuted := true,
    result := apt_install_result packages installResult isInstalled }

/-- `DnfManager.install_packages` as a flow, mirroring the apt one. -/
def dnf_install_packages_flow (cacheUpdated : Bool)
    (updateResult installResult : CommandResult)
    (isInstalled : String → Bool) (packages : List String) : InstallFlow :=
  let cache :=
    if cacheUpdated then (cacheUpdated, false)
    else ((dnf_update_cache cacheUpdated updateResult).1, true)
  { cacheUpdatedAfter := cache.1, updateAttempted := cache.2,
    installExecuted := true,
    result := dnf_install_result packages installResult isInstalled }

/-! ### config_loader.py: ConfigLoader.merge_app_configs

App catalog entries are modelled with the fields the merge reads: the app
id and the key set of its `install` dict; a category carries its name,
icon and application list.  The `merged_categories` Python dict (insertion
ordered, values mutated in place) is an association list with the usual
ordered-dict operations. -/

/-- An application entry: its `id` and the keys of its `install` dict. -/
structure AppEntry where
  id : String
  install : List String
  deriving DecidableEq, Repr

/-- A category of the catalog YAML: name, icon, applications. -/
structure AppCategory where
  name : String
  icon : String
  applications : List AppEntry
  deriving DecidableEq, Repr

/-- The membership test `package_manager in install_methods or "flatpak"
in install_methods` (also `AppDefinition.supports_package_manager`). -/
def AppEntry.supports (a : AppEntry) (pm : String) : Bool :=
  a.install.contains pm || a.install.contains "flatpak"

/-- `merged_categories[k] = v` on an insertion-ordered dict: overwrite in
place when the key exists, append otherwise. -/
def setCategory : List (String × AppCategory) → String → AppCategory →
    List (String × AppCategory)
  | [], k, v => [(k, v)]
  | (k2, v2) :: rest, k, v =>
    if k2 == k then (k, v) :: rest else (k2, v2) :: setCategory rest k v

/-- `merged_categories.get(k)`. -/
def getCategory? : List (String × AppCategory) → String → Option AppCategory
  | [], _ => none
  | (k2, v2) :: rest, k => if k2 == k then some v2 else getCategory? rest k

/-- The first loop of `merge_app_configs`: each common category is entered
into the dict with exactly its applications that support the package
manager (or flatpak). -/
def mergeCommonApps (pm : String) :
    List AppCategory → List (String × AppCategory) → List (String × AppCategory)
  | [], merged => merged
  | cat :: rest, merged =>
    mergeCommonApps pm rest
      (setCategory merged cat.name
        { name := cat.name, icon := cat.icon,
          applications := cat.applications.filter (fun a => a.supports pm) })

/-- The inner loop body of the second (distro) loop: a supporting app is
appended to its category unless an app with the same id is already there. -/
def addDistroApp (pm : String) (merged : List (String × AppCategory))
    (catName : String) (app : AppEntry) : List (String × AppCategory) :=
  if app.supports pm then
    match getCategory? merged catName with
    | some cat =>
      if cat.applications.any (fun existing => existing.id == app.id) then merged
      else setCategory merged catName
        { cat with applications := cat.applications ++ [app] }
    | none => merged
  else merged

/-- The second loop of `merge_app_configs`: distro categories are created
when absent, then their apps merged one by one. -/
def mergeDistroApps (pm : String) :
    List AppCategory → List (String × AppCategory) → List (String × AppCategory)
  | [], merged => merged
  | cat :: rest, merged =>
    let merged1 :=
      match getCategory? merged cat.name with
      | some _ => merged
      | none => merged ++ [(cat.name, { name := cat.name, icon := cat.icon,
                                        applications := [] })]
    mergeDistroApps pm rest
      (cat.applications.foldl (fun m a => addDistroApp pm m cat.name a) merged1)

/-- `ConfigLoader.merge_app_configs`: both loops, then the empty
categories are dropped, in dict order. -/
def merge_app_configs (pm : String) (common distro : List AppCategory) :
    List AppCategory :=
  ((mergeDistroApps pm distro (mergeCommonApps pm common [])).map Prod.snd).filter
    (fun cat => !cat.applications.isEmpty)

/-- Invariant of the `merged_categories` dict: every stored application
supports the detected package manager or flatpak. -/
def allSupport (pm : String) (merged : List (String × AppCategory)) : Prop :=
  ∀ kv ∈ merged, ∀ a ∈ kv.2.applications, a.supports pm = true

/-! ### Concrete data used by the witness theorems -/

/-- A successful `CommandResult`. -/
def demoOk : CommandResult :=
  { command := "true", return_code := 0, stdout := "", stderr := "",
    status := CommandStatus.success }

/-- A failed `CommandResult`. -/
def demoFail : CommandResult :=
  { command := "false", return_code := 1, stdout := "", stderr := "",
    status := CommandStatus.failed }

/-- An oracle mapping the command `false` to failure and the rest to
success. -/
def demoRun : String → CommandResult :=
  fun c => if c == "false" then demoFail else demoOk

/-- A handler on a machine where `shutil.which` found `sudo` only. -/
def demoPH : PrivilegeHandler := { has_sudo := true, has_pkexec := false }

/-- A failed combined `apt install` result. -/
def demoFailedInstall : CommandResult :=
  { command := "apt install -y real-pkg bogus-pkg", return_code := 100,
    stdout := "", stderr := "E: Unable to locate package bogus-pkg",
    status := CommandStatus.failed }

/-- A post-hoc installed-check oracle: only `real-pkg` is present. -/
def demoInstalled : String → Bool := fun p => p == "real-pkg"

/-- A failed `apt update` result (exit code 1, also not a dnf success
code). -/
def demoFailedUpdate : CommandResult :=
  { command := "apt update", return_code := 1, stdout := "",
    stderr := "E: The repository is not signed",
    status := CommandStatus.failed }

/-- The common catalog of the catalog-merge example. -/
def demoCommonCatalog : List AppCategory :=
  [{ name := "Browsers", icon := "🌐",
     applications := [{ id := "firefox", install := ["apt"] }] }]

/-- The distro catalog of the catalog-merge example. -/
def demoDistroCatalog : List AppCategory :=
  [{ name := "Browsers", icon := "🌐",
     applications := [{ id := "firefox", install := ["apt", "flatpak"] },
                      { id := "chrome", install := ["dnf"] }] }]

/-- The expected merged category of the catalog-merge example. -/
def demoMergedBrowsers : AppCategory :=
  { name := "Browsers", icon := "🌐",
    applications := [{ id := "firefox", install := ["apt"] }] }

/-! ## Theorems -/

/-- C4 (counterexample): on a machine where only `pkexec` is present,
`can_elevate` is true, yet `wrap_command` with `use_sudo=True` returns the
command unchanged and not the elevation-prefixed string the claim
requires. -/
theorem wrap_command_pkexec_only_counterexample :
    can_elevate { has_sudo := false, has_pkexec := true } = true ∧
    wrap_command { has_sudo := false, has_pkexec := true } "apt install -y htop" true =
      "apt install -y htop" ∧
    ¬(wrap_command { has_sudo := false, has_pkexec := true } "apt install -y htop" true =
      "sudo -n " ++ "apt install -y htop") := by
  refine ⟨rfl, rfl, ?_⟩
  decide

/-- C4 (amended): `wrap_command` prefixes `sudo -n ` exactly when
`use_sudo` is requested and the `sudo` binary itself is present
(`has_sudo`); in every other case — including systems where only a
polkit-equivalent provides elevation — the command is returned
unchanged. -/
theorem wrap_command_sudo_spec (ph : PrivilegeHandler) (command : String)
    (use_sudo : Bool) :
    (use_sudo = true → ph.has_sudo = true →
      wrap_command ph command use_sudo = "sudo -n " ++ command) ∧
    (use_sudo = false ∨ ph.has_sudo = false →
      wrap_command ph command use_sudo = command) := by
  constructor
  · intro hu hs
    simp [wrap_command, hu, hs]
  · intro h
    rcases h with hu | hs
    · simp [wrap_command, hu]
    · simp [wrap_command, hs]

/-- C4 (witness): with `sudo` present the prefix is added. -/
theorem wrap_command_sudo_spec_witness :
    wrap_command { has_sudo := true, has_pkexec := false } "apt update" true =
      "sudo -n " ++ "apt update" :=
  (wrap_command_sudo_spec { has_sudo := true, has_pkexec := false } "apt update" true).1
    rfl rfl

/-- C6: when the confirmation prompt receives any non-affirmative line,
`execute_with_confirmation` returns a `TerminalResult` with return code 0
and success true, and hands no command to the interactive runner. -/
theorem decline_confirmation_noop (line : String) (commands : List String)
    (use_sudo : Bool) (runInteractive : List String → Bool → TerminalResult)
    (h : affirmative line = false) :
    execute_with_confirmation (ConfirmResponse.typed line) commands use_sudo
        runInteractive =
      ({ return_code := 0, success := true }, []) := by
  simp [execute_with_confirmation, h, TerminalResult.from_code]

/-- C6 (witness): declining with ` N ` runs nothing and reports success. -/
theorem decline_confirmation_noop_witness :
    affirmative " N " = false ∧
    execute_with_confirmation (ConfirmResponse.typed " N ")
        ["rm -rf /var/cache/apt"] true (fun _ _ => TerminalResult.from_code 7) =
      ({ return_code := 0, success := true }, []) :=
  ⟨by decide,
   decline_confirmation_noop " N " ["rm -rf /var/cache/apt"] true
     (fun _ _ => TerminalResult.from_code 7) (by decide)⟩

/-- C7: the environment the subprocess is spawned with maps the four
forced keys to their fixed values, whatever the caller-supplied env says;
hence two calls whose caller envs differ (in particular, differ only in
values for these keys) spawn identical values for these four keys. -/
theorem exec_env_forces_noninteractive (osEnviron : String → Option String)
    (callerEnv : List (String × String)) :
    buildExecEnv osEnviron callerEnv "DEBIAN_FRONTEND" = some "noninteractive" ∧
    buildExecEnv osEnviron callerEnv "NEEDRESTART_MODE" = some "a" ∧
    buildExecEnv osEnviron callerEnv "LANG" = some "C" ∧
    buildExecEnv osEnviron callerEnv "LC_ALL" = some "C" ∧
    ∀ env1 env2 : List (String × String),
      ∀ k ∈ ["DEBIAN_FRONTEND", "NEEDRESTART_MODE", "LANG", "LC_ALL"],
        buildExecEnv osEnviron env1 k = buildExecEnv osEnviron env2 k := by
  refine ⟨rfl, rfl, rfl, rfl, ?_⟩
  intro env1 env2 k hk
  simp only [List.mem_cons, List.not_mem_nil, or_false] at hk
  rcases hk with rfl | rfl | rfl | rfl <;> rfl

/-- C7 (witness): a caller override of `LANG` never reaches the
subprocess. -/
theorem exec_env_forces_noninteractive_witness :
    buildExecEnv (fun _ => none)
        [("LANG", "de_DE.UTF-8"), ("DEBIAN_FRONTEND", "dialog")] "LANG" = some "C" ∧
    buildExecEnv (fun _ => none) [("LANG", "de_DE.UTF-8")] "LANG" =
      buildExecEnv (fun _ => none) [("LANG", "fr_FR.UTF-8")] "LANG" := by
  constructor
  · exact (exec_env_forces_noninteractive (fun _ => none)
      [("LANG", "de_DE.UTF-8"), ("DEBIAN_FRONTEND", "dialog")]).2.2.1
  · exact (exec_env_forces_noninteractive (fun _ => none) []).2.2.2.2
      [("LANG", "de_DE.UTF-8")] [("LANG", "fr_FR.UTF-8")] "LANG" (by simp)

/-- C8: `DnfManager.update_cache` returns true and marks the cache updated
exactly when `dnf check-update` exited 0 (no updates) or 100 (updates
available); on any other exit code it returns false and leaves the flag as
it was. -/
theorem dnf_update_cache_codes (cacheUpdated : Bool) (result : CommandResult) :
    ((dnf_update_cache cacheUpdated result).2 = true ↔
      (result.return_code = 0 ∨ result.return_code = 100)) ∧
    ((dnf_update_cache cacheUpdated result).2 = true →
      (dnf_update_cache cacheUpdated result).1 = true) ∧
    ((dnf_update_cache cacheUpdated result).2 = false →
      (dnf_update_cache cacheUpdated result).1 = cacheUpdated) := by
  unfold dnf_update_cache
  split
  · next h =>
    simp only [Bool.or_eq_true, beq_iff_eq] at h
    simp [h]
  · next h =>
    simp only [Bool.or_eq_true, beq_iff_eq] at h
    push_neg at h
    simp [h]

/-- C8 (witness): exit code 100 counts as success. -/
theorem dnf_update_cache_codes_witness :
    (dnf_update_cache false
      { command := "dnf check-update", return_code := 100, stdout := "",
        stderr := "", status := CommandStatus.failed }).1 = true := by
  have h := dnf_update_cache_codes false
    { command := "dnf check-update", return_code := 100, stdout := "",
      stderr := "", status := CommandStatus.failed }
  exact h.2.1 (h.1.mpr (Or.inr rfl))

/-- C3: `execute_multiple` runs commands in order with the start callback
before and the complete callback after each; with `stop_on_error` it stops
right after the first unsuccessful result (for `[ok, fail, ok2]` it yields
two results and never starts `ok2`), and without it every command runs and
contributes exactly one result. -/
theorem execute_multiple_stop_and_order (run : String → CommandResult)
    (c1 c2 c3 : String)
    (h1 : (run c1).success = true) (h2 : (run c2).success = false) :
    (execute_multiple run true [c1, c2, c3]).1 = [run c1, run c2] ∧
    (execute_multiple run true [c1, c2, c3]).2 =
      [MultiEvent.start c1, MultiEvent.complete (run c1),
       MultiEvent.start c2, MultiEvent.complete (run c2)] ∧
    (∀ commands, (execute_multiple run false commands).1 = commands.map run) ∧
    (∀ commands, (execute_multiple run false commands).2 =
      (commands.map (fun c => [MultiEvent.start c, MultiEvent.complete (run c)])).flatten) := by
  refine ⟨?_, ?_, ?_, ?_⟩
  · simp [execute_multiple, h1, h2]
  · simp [execute_multiple, h1, h2]
  · intro commands
    induction commands with
    | nil => rfl
    | cons c rest ih => simp [execute_multiple, ih]
  · intro commands
    induction commands with
    | nil => rfl
    | cons c rest ih => simp [execute_multiple, ih]

/-- C3 (witness): `[ok, fail, ok2]` with stop_on_error yields exactly the
first two results. -/
theorem execute_multiple_stop_and_order_witness :
    (execute_multiple demoRun true ["true", "false", "echo done"]).1 =
      [demoRun "true", demoRun "false"] :=
  (execute_multiple_stop_and_order demoRun "true" "false" "echo done"
    (by decide) (by decide)).1

/-- C1: every `CommandResult` returned by `execute` has return code 0 when
its status is Success and return code -1 when its status is Timeout; a
process exiting 0 with no timeout yields a successful Success result, and
an expired timeout yields a Timeout result with code -1 carrying the
output captured before the kill. -/
theorem execute_status_code_invariants (ph : PrivilegeHandler) (command : String)
    (use_sudo sudoCached elevationGranted : Bool) :
    (∀ outcome r,
      execute ph command use_sudo sudoCached elevationGranted outcome = Except.ok r →
      (r.status = CommandStatus.success → r.return_code = 0) ∧
      (r.status = CommandStatus.timeout → r.return_code = -1)) ∧
    (∀ out err r,
      execute ph command use_sudo sudoCached elevationGranted
          (ExecOutcome.completed 0 out err) = Except.ok r →
      r.success = true ∧ r.status = CommandStatus.success ∧ r.return_code = 0) ∧
    (∀ out err r,
      execute ph command use_sudo sudoCached elevationGranted
          (ExecOutcome.timedOut out err) = Except.ok r →
      r.status = CommandStatus.timeout ∧ r.return_code = -1 ∧
      r.stdout = out ∧ r.stderr = err) := by
  refine ⟨?_, ?_, ?_⟩
  · intro outcome r h
    unfold execute at h
    split at h
    · exact absurd h (by simp)
    · split at h
      · exact absurd h (by simp)
      · cases outcome with
        | completed code out err =>
          simp only [Except.ok.injEq] at h
          subst h
          constructor
          · intro hs
            by_cases hc : code = 0
            · simpa using hc
            · simp only [CommandResult.status] at hs
              simp [hc] at hs
          · intro hs
            by_cases hc : code = 0
            · simp [hc] at hs
            · simp [hc] at hs
        | timedOut out err =>
          simp only [Except.ok.injEq] at h
          subst h
          exact ⟨by intro hs; simp at hs, by intro _; rfl⟩
        | raised msg =>
          simp only [Except.ok.injEq] at h
          subst h
          exact ⟨by intro hs; simp at hs, by intro hs; simp at hs⟩
  · intro out err r h
    unfold execute at h
    split at h
    · exact absurd h (by simp)
    · split at h
      · exact absurd h (by simp)
      · simp only [Except.ok.injEq] at h
        subst h
        exact ⟨rfl, rfl, rfl⟩
  · intro out err r h
    unfold execute at h
    split at h
    · exact absurd h (by simp)
    · split at h
      · exact absurd h (by simp)
      · simp only [Except.ok.injEq] at h
        subst h
        exact ⟨rfl, rfl, rfl, rfl⟩

/-- C1 (witness): a command exiting 0 without sudo produces the Success
result whose success property holds. -/
theorem execute_status_code_invariants_witness :
    execute demoPH "ls" false true true (ExecOutcome.completed 0 "listing" "") =
      Except.ok { command := "ls", return_code := 0, stdout := "listing", stderr := "",
                  status := CommandStatus.success } ∧
    CommandResult.success { command := "ls", return_code := 0, stdout := "listing",
                            stderr := "", status := CommandStatus.success } = true := by
  refine ⟨rfl, ?_⟩
  exact ((execute_status_code_invariants demoPH "ls" false true true).2.1 "listing" ""
    { command := "ls", return_code := 0, stdout := "listing", stderr := "",
      status := CommandStatus.success } rfl).1

/-- C2: `execute` raises (models as `.error`) exactly in the
privilege-precondition case — `use_sudo` with elevation unavailable, or
with the sudo probe failing and the elevation request denied — and that
decision is independent of anything the subprocess does; any exception
raised during launch or execution instead yields a returned Failed result
with return code -1, empty stdout and the exception text as stderr. -/
theorem execute_raises_only_privilege_error (ph : PrivilegeHandler) (command : String)
    (use_sudo sudoCached elevationGranted : Bool) (outcome : ExecOutcome) :
    raisesPrivilegeError
        (execute ph command use_sudo sudoCached elevationGranted outcome) =
      (use_sudo && (!(can_elevate ph) ||
        (!(check_privileges ph sudoCached) && !elevationGranted))) ∧
    (∀ msg,
      (use_sudo && (!(can_elevate ph) ||
        (!(check_privileges ph sudoCached) && !elevationGranted))) = false →
      execute ph command use_sudo sudoCached elevationGranted
          (ExecOutcome.raised msg) =
        Except.ok { command := if use_sudo then wrap_command ph command true else command,
                    return_code := -1, stdout := "", stderr := msg,
                    status := CommandStatus.failed }) := by
  obtain ⟨hs, hp⟩ := ph
  constructor
  · cases outcome <;> cases use_sudo <;> cases sudoCached <;>
      cases elevationGranted <;> cases hs <;> cases hp <;>
      simp [execute, raisesPrivilegeError, can_elevate, check_privileges]
  · intro msg h
    cases use_sudo <;> cases sudoCached <;> cases elevationGranted <;>
        cases hs <;> cases hp <;>
      simp_all [execute, raisesPrivilegeError, can_elevate, check_privileges,
        wrap_command]

/-- C2 (witness): with no elevation tool `execute` raises before spawning;
a launch exception on a non-sudo call is returned as a Failed result. -/
theorem execute_raises_only_privilege_error_witness :
    raisesPrivilegeError
        (execute { has_sudo := false, has_pkexec := false } "apt update" true
          false false (ExecOutcome.completed 0 "" "")) = true ∧
    execute demoPH "missing-bin" false true true
        (ExecOutcome.raised "FileNotFoundError") =
      Except.ok { command := "missing-bin", return_code := -1, stdout := "",
                  stderr := "FileNotFoundError", status := CommandStatus.failed } := by
  constructor
  · exact (execute_raises_only_privilege_error
      { has_sudo := false, has_pkexec := false } "apt update" true false false
      (ExecOutcome.completed 0 "" "")).1
  · exact (execute_raises_only_privilege_error demoPH "missing-bin" false true true
      (ExecOutcome.completed 0 "" "")).2 "FileNotFoundError" rfl

/-- A name is in the installed list of the classification loop iff it is a
requested package the post-hoc check reports installed. -/
theorem classifyPackages_mem_installed (isInstalled : String → Bool)
    (extractErr : String → String → String) (stderr : String)
    (packages : List String) (n : String) :
    n ∈ (classifyPackages isInstalled extractErr stderr packages).1 ↔
      n ∈ packages ∧ isInstalled n = true := by
  induction packages with
  | nil => simp [classifyPackages]
  | cons p rest ih =>
    by_cases hp : isInstalled p = true
    · simp [classifyPackages, hp, ih]
      try aesop
    · rw [Bool.not_eq_true] at hp
      simp [classifyPackages, hp, ih]
      try aesop

/-- A name is in the failed list of the classification loop iff it is a
requested package the post-hoc check reports missing. -/
theorem classifyPackages_mem_failed (isInstalled : String → Bool)
    (extractErr : String → String → String) (stderr : String)
    (packages : List String) (n : String) :
    n ∈ (classifyPackages isInstalled extractErr stderr packages).2.1 ↔
      n ∈ packages ∧ isInstalled n = false := by
  induction packages with
  | nil => simp [classifyPackages]
  | cons p rest ih =>
    by_cases hp : isInstalled p = true
    · simp [classifyPackages, hp, ih]
      try aesop
    · rw [Bool.not_eq_true] at hp
      simp [classifyPackages, hp, ih]
      try aesop

/-- The error entries of the classification loop are keyed exactly by the
failed list, in order. -/
theorem classifyPackages_errors_keys (isInstalled : String → Bool)
    (extractErr : String → String → String) (stderr : String)
    (packages : List String) :
    ((classifyPackages isInstalled extractErr stderr packages).2.2).map Prod.fst =
      (classifyPackages isInstalled extractErr stderr packages).2.1 := by
  induction packages with
  | nil => rfl
  | cons p rest ih =>
    by_cases hp : isInstalled p = true <;> simp [classifyPackages, hp, ih]

/-- C5: when the combined install command did not succeed, the returned
`InstallResult` splits the requested names disjointly between installed
and failed according to the post-hoc per-package check, the error entries
are keyed exactly by the failed names, and `all_successful` holds iff the
success flag is set and the failed list is empty. -/
theorem install_packages_failure_partition (packages : List String)
    (result : CommandResult) (isInstalled : String → Bool)
    (h : result.success = false) :
    (∀ n, ¬(n ∈ (apt_install_result packages result isInstalled).packages_installed ∧
            n ∈ (apt_install_result packages result isInstalled).packages_failed)) ∧
    (∀ n, n ∈ (apt_install_result packages result isInstalled).packages_installed ↔
            (n ∈ packages ∧ isInstalled n = true)) ∧
    (∀ n, n ∈ (apt_install_result packages result isInstalled).packages_failed ↔
            (n ∈ packages ∧ isInstalled n = false)) ∧
    ((apt_install_result packages result isInstalled).errors.map Prod.fst =
      (apt_install_result packages result isInstalled).packages_failed) ∧
    (∀ ir : InstallResult, ir.all_successful = true ↔
      (ir.success = true ∧ ir.packages_failed = [])) := by
  have hres : apt_install_result packages result isInstalled =
      { success := result.success,
        packages_installed :=
          (classifyPackages isInstalled extract_error_apt result.stderr packages).1,
        packages_failed :=
          (classifyPackages isInstalled extract_error_apt result.stderr packages).2.1,
        errors :=
          (classifyPackages isInstalled extract_error_apt result.stderr packages).2.2,
        output := result.output } := by
    simp [apt_install_result, install_packages_result, h]
  refine ⟨?_, ?_, ?_, ?_, ?_⟩
  · intro n hn
    rw [hres] at hn
    have h1 := (classifyPackages_mem_installed isInstalled extract_error_apt
      result.stderr packages n).mp hn.1
    have h2 := (classifyPackages_mem_failed isInstalled extract_error_apt
      result.stderr packages n).mp hn.2
    rw [h1.2] at h2
    cases h2.2
  · intro n
    rw [hres]
    exact classifyPackages_mem_installed isInstalled extract_error_apt
      result.stderr packages n
  · intro n
    rw [hres]
    exact classifyPackages_mem_failed isInstalled extract_error_apt
      result.stderr packages n
  · rw [hres]
    exact classifyPackages_errors_keys isInstalled extract_error_apt
      result.stderr packages
  · intro ir
    simp [InstallResult.all_successful, List.length_eq_zero]

/-- C5 (witness): for `["real-pkg", "bogus-pkg"]` with a failed combined
install and only `real-pkg` found installed, the error keys are exactly
the failed list and `real-pkg` is not in both lists. -/
theorem install_packages_failure_partition_witness :
    ((apt_install_result ["real-pkg", "bogus-pkg"] demoFailedInstall
        demoInstalled).errors.map Prod.fst =
      (apt_install_result ["real-pkg", "bogus-pkg"] demoFailedInstall
        demoInstalled).packages_failed) ∧
    ¬("real-pkg" ∈ (apt_install_result ["real-pkg", "bogus-pkg"] demoFailedInstall
        demoInstalled).packages_installed ∧
      "real-pkg" ∈ (apt_install_result ["real-pkg", "bogus-pkg"] demoFailedInstall
        demoInstalled).packages_failed) := by
  have h := install_packages_failure_partition ["real-pkg", "bogus-pkg"]
    demoFailedInstall demoInstalled (by decide)
  exact ⟨h.2.2.2.1, h.1 "real-pkg"⟩

/-- C10: with the cache flag unset and a failing `update_cache`, both the
apt and the dnf `install_packages` still attempt the cache update, still
execute the install command, leave the flag unset, and therefore attempt
the update again on the next call. -/
theorem failed_cache_update_is_retried (updateResult installResult : CommandResult)
    (isInstalled : String → Bool) (packages : List String)
    (hApt : updateResult.success = false)
    (hDnf : updateResult.return_code ≠ 0 ∧ updateResult.return_code ≠ 100) :
    ((apt_install_packages_flow false updateResult installResult isInstalled
        packages).updateAttempted = true ∧
     (apt_install_packages_flow false updateResult installResult isInstalled
        packages).installExecuted = true ∧
     (apt_install_packages_flow false updateResult installResult isInstalled
        packages).cacheUpdatedAfter = false ∧
     (apt_install_packages_flow
        (apt_install_packages_flow false updateResult installResult isInstalled
          packages).cacheUpdatedAfter
        updateResult installResult isInstalled packages).updateAttempted = true) ∧
    ((dnf_install_packages_flow false updateResult installResult isInstalled
        packages).updateAttempted = true ∧
     (dnf_install_packages_flow false updateResult installResult isInstalled
        packages).installExecuted = true ∧
     (dnf_install_packages_flow false updateResult installResult isInstalled
        packages).cacheUpdatedAfter = false ∧
     (dnf_install_packages_flow
        (dnf_install_packages_flow false updateResult installResult isInstalled
          packages).cacheUpdatedAfter
        updateResult installResult isInstalled packages).updateAttempted = true) := by
  constructor
  · simp [apt_install_packages_flow, apt_update_cache, hApt]
  · simp [dnf_install_packages_flow, dnf_update_cache, hDnf.1, hDnf.2]

/-- C10 (witness): a concrete failing `apt update` is retried on the next
call and does not block the install. -/
theorem failed_cache_update_is_retried_witness :
    (apt_install_packages_flow false demoFailedUpdate demoFailedInstall
        demoInstalled ["real-pkg"]).updateAttempted = true ∧
    (apt_install_packages_flow false demoFailedUpdate demoFailedInstall
        demoInstalled ["real-pkg"]).installExecuted = true ∧
    (apt_install_packages_flow false demoFailedUpdate demoFailedInstall
        demoInstalled ["real-pkg"]).cacheUpdatedAfter = false := by
  have h := failed_cache_update_is_retried demoFailedUpdate demoFailedInstall
    demoInstalled ["real-pkg"] (by decide) (by decide)
  exact ⟨h.1.1, h.1.2.1, h.1.2.2.1⟩

/-- `setCategory` preserves the support invariant when the stored value
satisfies it. -/
theorem setCategory_allSupport (pm : String) (merged : List (String × AppCategory))
    (k : String) (v : AppCategory) (hm : allSupport pm merged)
    (hv : ∀ a ∈ v.applications, a.supports pm = true) :
    allSupport pm (setCategory merged k v) := by
  induction merged with
  | nil =>
    intro kv hkv
    simp only [setCategory, List.mem_singleton] at hkv
    subst hkv
    exact hv
  | cons hd tl ih =>
    intro kv hkv
    obtain ⟨k2, v2⟩ := hd
    simp only [setCategory] at hkv
    split at hkv
    · rcases List.mem_cons.mp hkv with h1 | h1
      · subst h1; exact hv
      · exact hm _ (List.mem_cons_of_mem _ h1)
    · rcases List.mem_cons.mp hkv with h1 | h1
      · subst h1; exact hm _ (List.mem_cons_self _ _)
      · exact ih (fun kv2 hkv2 => hm kv2 (List.mem_cons_of_mem _ hkv2)) kv h1

/-- Looking a category up in a dict satisfying the support invariant gives
only supporting applications. -/
theorem getCategory?_allSupport (pm : String) (merged : List (String × AppCategory))
    (k : String) (cat : AppCategory) (hm : allSupport pm merged)
    (hg : getCategory? merged k = some cat) :
    ∀ a ∈ cat.applications, a.supports pm = true := by
  induction merged with
  | nil => cases hg
  | cons hd tl ih =>
    obtain ⟨k2, v2⟩ := hd
    simp only [getCategory?] at hg
    split at hg
    · cases hg
      exact hm _ (List.mem_cons_self _ _)
    · exact ih (fun kv2 hkv2 => hm kv2 (List.mem_cons_of_mem _ hkv2)) hg

/-- The common-apps loop preserves the support invariant. -/
theorem mergeCommonApps_allSupport (pm : String) (common : List AppCategory)
    (merged : List (String × AppCategory)) (hm : allSupport pm merged) :
    allSupport pm (mergeCommonApps pm common merged) := by
  induction common generalizing merged with
  | nil => exact hm
  | cons cat rest ih =>
    refine ih _ (setCategory_allSupport pm merged cat.name _ hm ?_)
    intro a ha
    exact (List.mem_filter.mp ha).2

/-- One distro-app merge step preserves the support invariant. -/
theorem addDistroApp_allSupport (pm : String) (merged : List (String × AppCategory))
    (catName : String) (app : AppEntry) (hm : allSupport pm merged) :
    allSupport pm (addDistroApp pm merged catName app) := by
  unfold addDistroApp
  split
  · next happ =>
    cases hg : getCategory? merged catName with
    | none => simpa [hg] using hm
    | some cat =>
      simp only [hg]
      split
      · exact hm
      · refine setCategory_allSupport pm merged catName _ hm ?_
        intro a ha
        rcases List.mem_append.mp ha with h1 | h1
        · exact getCategory?_allSupport pm merged catName cat hm hg a h1
        · rcases List.mem_singleton.mp h1 with rfl
          exact happ
  · exact hm

/-- Folding the distro-app merge over an app list preserves the support
invariant. -/
theorem foldlAddDistroApp_allSupport (pm : String) (catName : String)
    (apps : List AppEntry) (merged : List (String × AppCategory))
    (hm : allSupport pm merged) :
    allSupport pm (apps.foldl (fun m a => addDistroApp pm m catName a) merged) := by
  induction apps generalizing merged with
  | nil => exact hm
  | cons a rest ih =>
    exact ih _ (addDistroApp_allSupport pm merged catName a hm)

/-- The distro-apps loop preserves the support invariant. -/
theorem mergeDistroApps_allSupport (pm : String) (distro : List AppCategory)
    (merged : List (String × AppCategory)) (hm : allSupport pm merged) :
    allSupport pm (mergeDistroApps pm distro merged) := by
  induction distro generalizing merged with
  | nil => exact hm
  | cons cat rest ih =>
    refine ih _ (foldlAddDistroApp_allSupport pm cat.name cat.applications _ ?_)
    cases hg : getCategory? merged cat.name with
    | some c => simpa [mergeDistroApps, hg] using hm
    | none =>
      simp only [hg]
      intro kv hkv
      rcases List.mem_append.mp hkv with h1 | h1
      · exact hm kv h1
      · rcases List.mem_singleton.mp h1 with rfl
        intro a ha
        cases ha

/-- C9: merging a common and a distro app catalog keeps only apps that
support the detected package manager or flatpak, a distro entry whose id
already appears in its merged category is dropped (first occurrence wins),
and the §8 example — common Browsers `firefox` (apt), distro Browsers
`firefox` (apt, flatpak) and `chrome` (dnf only), merged for apt — yields
one Browsers category containing exactly the common `firefox`. -/
theorem merge_app_configs_supports_and_example :
    (∀ pm : String, ∀ common distro : List AppCategory,
      ∀ cat ∈ merge_app_configs pm common distro,
      ∀ app ∈ cat.applications, app.supports pm = true) ∧
    merge_app_configs "apt" demoCommonCatalog demoDistroCatalog =
      [demoMergedBrowsers] := by
  constructor
  · intro pm common distro cat hcat app happ
    have hall : allSupport pm (mergeDistroApps pm distro (mergeCommonApps pm common [])) :=
      mergeDistroApps_allSupport pm distro _
        (mergeCommonApps_allSupport pm common [] (fun kv hkv => by cases hkv))
    unfold merge_app_configs at hcat
    rcases List.mem_filter.mp hcat with ⟨hmem, _⟩
    rcases List.mem_map.mp hmem with ⟨kv, hkv, rfl⟩
    exact hall kv hkv app happ
  · rfl

/-- C9 (witness): the surviving `firefox` of the merged example indeed
supports apt. -/
theorem merge_app_configs_supports_and_example_witness :
    AppEntry.supports { id := "firefox", install := ["apt"] } "apt" = true :=
  merge_app_configs_supports_and_example.1 "apt" demoCommonCatalog demoDistroCatalog
    demoMergedBrowsers (by decide) { id := "firefox", install := ["apt"] } (by decide)

end Linutil
